import Mathlib

/-!
Verification of the vertex-grid geometry engine
(`flopy/discretization/vertexgrid.py`).

The Python source is shallowly embedded over exact rational coordinates.
Machine floats are modelled by `ℚ`; Python exceptions are modelled by
`Except GErr`; the mutable `_copy_cache` flag is threaded explicitly
through the operations that toggle it.

Because the library's field operations on `ℚ` are `@[irreducible]`, the
embedding computes with small kernel-reducible wrappers (`qadd`, `qsub`,
`qmul`, `qdiv`, ...). Each wrapper is proved equal to the corresponding
standard operation on `ℚ` (`qadd_eq_add`, ...), so concrete instances can
be settled by `decide` without changing the mathematical content.
-/

deriving instance DecidableEq for Except

namespace FlopyVG

/-- Kernel-reducible addition on `ℚ` (agrees with `+`, see `qadd_eq_add`). -/
def qadd (a b : ℚ) : ℚ := mkRat (a.num * (b.den : Int) + b.num * (a.den : Int)) (a.den * b.den)

/-- Kernel-reducible subtraction on `ℚ` (agrees with `-`, see `qsub_eq_sub`). -/
def qsub (a b : ℚ) : ℚ := mkRat (a.num * (b.den : Int) - b.num * (a.den : Int)) (a.den * b.den)

/-- Kernel-reducible multiplication on `ℚ` (agrees with `*`, see `qmul_eq_mul`). -/
def qmul (a b : ℚ) : ℚ := mkRat (a.num * b.num) (a.den * b.den)

/-- Kernel-reducible negation on `ℚ` (agrees with `Neg.neg`, see `qneg_eq_neg`). -/
def qneg (a : ℚ) : ℚ := mkRat (-a.num) a.den

/-- Kernel-reducible inverse on `ℚ` (agrees with `Inv.inv`, see `qinv_eq_inv`). -/
def qinv (b : ℚ) : ℚ := mkRat ((b.den : Int) * (if b.num < 0 then -1 else 1)) b.num.natAbs

/-- Kernel-reducible division on `ℚ` (agrees with `/`, see `qdiv_eq_div`). -/
def qdiv (a b : ℚ) : ℚ := qmul a (qinv b)

/-- Kernel-reducible `≤` test on `ℚ` (see `qle_iff`). -/
def qle (a b : ℚ) : Bool := !(Rat.blt b a)

/-- Kernel-reducible `<` test on `ℚ` (see `qlt_iff`). -/
def qlt (a b : ℚ) : Bool := Rat.blt a b

/-- Kernel-reducible equality test on `ℚ` (see `qeq_iff`). -/
def qeq (a b : ℚ) : Bool := a.num == b.num && a.den == b.den

/-- Kernel-reducible minimum on `ℚ`. -/
def qmin (a b : ℚ) : ℚ := if qle a b then a else b

/-- Kernel-reducible maximum on `ℚ`. -/
def qmax (a b : ℚ) : ℚ := if qle a b then b else a

theorem qadd_eq_add (a b : ℚ) : qadd a b = a + b := by
  rw [qadd, Rat.add_def, Rat.normalize_eq_mkRat]

theorem qsub_eq_sub (a b : ℚ) : qsub a b = a - b := by
  rw [qsub, Rat.sub_def, Rat.normalize_eq_mkRat]

theorem qmul_eq_mul (a b : ℚ) : qmul a b = a * b := by
  rw [qmul, Rat.mul_def, Rat.normalize_eq_mkRat]

theorem qneg_eq_neg (a : ℚ) : qneg a = -a := by
  rw [qneg, Rat.neg_def, Rat.mkRat_eq_div, Rat.divInt_eq_div]
  push_cast
  rw [neg_div, Rat.num_div_den]

theorem qinv_eq_inv (b : ℚ) : qinv b = b⁻¹ := by
  rw [qinv, Rat.inv_def', Rat.mkRat_eq_div, Rat.divInt_eq_div]
  rcases lt_trichotomy b.num 0 with h | h | h
  · rw [if_pos h]
    rw [Int.cast_mul]
    have : (b.num.natAbs : ℚ) = -(b.num : ℚ) := by
      rw [Int.cast_natAbs]
      simp [abs_of_neg (show (b.num : ℚ) < 0 by exact_mod_cast h)]
    rw [this]
    push_cast
    rw [mul_neg_one, neg_div_neg_eq]
  · rw [if_neg (by omega), h]
    simp
  · rw [if_neg (by omega)]
    have : (b.num.natAbs : ℚ) = (b.num : ℚ) := by
      rw [Int.cast_natAbs]
      simp [abs_of_pos (show (0:ℚ) < (b.num : ℚ) by exact_mod_cast h)]
    rw [this]
    push_cast
    rw [mul_one]

theorem qdiv_eq_div (a b : ℚ) : qdiv a b = a / b := by
  rw [qdiv, qmul_eq_mul, qinv_eq_inv, div_eq_mul_inv]

theorem qle_iff (a b : ℚ) : qle a b = true ↔ a ≤ b := by
  show (!Rat.blt b a) = true ↔ a ≤ b
  rw [Bool.not_eq_true']
  exact Iff.rfl

theorem qlt_iff (a b : ℚ) : qlt a b = true ↔ a < b := Iff.rfl

theorem qeq_iff (a b : ℚ) : qeq a b = true ↔ a = b := by
  constructor
  · intro h
    simp only [qeq, Bool.and_eq_true, beq_iff_eq] at h
    exact Rat.ext h.1 h.2
  · rintro rfl
    simp [qeq]

/-- Python `int(q)` on a numeric value: truncation toward zero.
For the integral rationals used as vertex ids it is exact. -/
def pyInt (q : ℚ) : Int := q.num.tdiv (q.den : Int)

/-- Python list indexing `l[i]`: negative indices count from the end;
`none` models the `IndexError` raised on an out-of-range index. -/
def pyGet (l : List α) (i : Int) : Option α :=
  if 0 ≤ i then l.get? i.toNat
  else
    let j := i + (l.length : Int)
    if 0 ≤ j then l.get? j.toNat else none

/-- Exceptions the embedded operations can raise.

* `indexOut`  – the explicit `IndexError` raised by `get_cell_vertices`;
* `indexErr`  – an `IndexError` raised by Python/numpy indexing itself;
* `keyErr`    – `KeyError`: a cell references a vertex id absent from the
  vertex table;
* `typeErr`   – `TypeError`: iterating over `None` (e.g. the `cell1d`
  accessor reading a missing `_cell2d` table);
* `outside`   – the `Exception("point given is outside of the model area")`
  raised by `intersect`;
* `valueDim3` – `ValueError` for a rank-3 array with no squeezable axis;
* `valueRank` – `ValueError` for an array of unsupported rank;
* `assertFail`– the final `assert plotarray.shape == required_shape`;
* `valueEmpty`– `ValueError` from `np.hstack`/`np.min` on empty input;
* `nonterm`   – marker for the non-terminating `while` loop that Python
  enters when `ncpl = 0` (degenerate, excluded by the theorems). -/
inductive GErr
  | indexOut | indexErr | keyErr | typeErr | outside
  | valueDim3 | valueRank | assertFail | valueEmpty | nonterm
deriving DecidableEq, Repr

/-- Raw state of a `VertexGrid` instance after `__init__`.

`_vertices` rows are `(id, x, y, z)`; 2-D grids never read the `z` slot
(Python rows there have length 3), 1-D grids read it as `v[3]`.
`_cell2d`/`_cell1d` rows are the raw ragged record lists, `none` entries
modelling the `None` padding that the accessors filter out.
`frame` is the reference frame `(xoff, yoff, cos angrot, sin angrot)`;
`none` models `xoff = yoff = angrot = 0`, i.e. `_has_ref_coordinates`
false. The trigonometric evaluation of `angrot` happens outside the
embedded code, so the frame is carried by its rotation-matrix entries. -/
structure VertexGrid where
  _vertices : List (ℚ × ℚ × ℚ × ℚ)
  _cell2d : Option (List (List (Option ℚ)))
  _cell1d : Option (List (List (Option ℚ)))
  _top : Option (List ℚ)
  _botm : Option (List (List ℚ))
  _nlay : Option ℕ
  _ncpl : Option ℕ
  frame : Option (ℚ × ℚ × ℚ × ℚ)
deriving DecidableEq, Repr

/-- Constructor logic of `VertexGrid.__init__`: when `botm` is given the
explicit `nlay`/`ncpl` arguments are discarded (`self._nlay = None`,
`self._ncpl = None`). -/
def mkVertexGrid (vertices : List (ℚ × ℚ × ℚ × ℚ))
    (cell2d : Option (List (List (Option ℚ))))
    (top : Option (List ℚ)) (botm : Option (List (List ℚ)))
    (nlay ncpl : Option ℕ) (cell1d : Option (List (List (Option ℚ))))
    (frame : Option (ℚ × ℚ × ℚ × ℚ)) : VertexGrid :=
  { _vertices := vertices
    _cell2d := cell2d
    _cell1d := cell1d
    _top := top
    _botm := botm
    _nlay := if botm.isNone then nlay else none
    _ncpl := if botm.isNone then ncpl else none
    frame := frame }

/-- Property `VertexGrid.nlay`. The final fallback `self._nlay` may be
`None` in Python, in which case any numeric use of it raises; the
embedding totalises that degenerate case to `0` (no theorem exercises it). -/
def VertexGrid.nlay (g : VertexGrid) : ℕ :=
  if g._cell1d.isSome then 1
  else match g._botm with
    | some b => b.length
    | none => g._nlay.getD 0

/-- Property `VertexGrid.ncpl`. As with `nlay`, the `None` fallback is
totalised to `0`. `len(self._botm[0])` on an empty `botm` would raise in
Python; the embedding returns `0` there (no theorem exercises it). -/
def VertexGrid.ncpl (g : VertexGrid) : ℕ :=
  if g._cell1d.isSome then g._cell1d.getD [] |>.length
  else match g._botm with
    | some b => (b.headD []).length
    | none =>
      match g._cell2d, g._nlay with
      | some c2, none => c2.length
      | _, _ => g._ncpl.getD 0

/-- Property `VertexGrid.nnodes = nlay * ncpl`. -/
def VertexGrid.nnodes (g : VertexGrid) : ℕ := g.nlay * g.ncpl

/-- Property `VertexGrid.cell2d`: filters the `None` padding out of each
raw `_cell2d` row; returns `none` (Python `None`) when `_cell2d` is unset. -/
def VertexGrid.cell2dRows (g : VertexGrid) : Option (List (List ℚ)) :=
  g._cell2d.map (fun rows => rows.map (fun r => r.filterMap id))

/-- Property `VertexGrid.cell1d` exactly as written in the source: when
`_cell1d` is set it iterates over `self._cell2d` (not `self._cell1d`!).
If `_cell2d` is `None` that comprehension raises `TypeError`. -/
def VertexGrid.cell1dRows (g : VertexGrid) : Except GErr (Option (List (List ℚ))) :=
  match g._cell1d with
  | none => .ok none
  | some _ =>
    match g._cell2d with
    | none => .error .typeErr
    | some rows => .ok (some (rows.map (fun r => r.filterMap id)))

/-- Modelled from the spec: `get_coords` of the base `Grid` class
(repository code outside `src/`), the local-to-world transform — rotate
counter-clockwise about the origin, then translate by the offset. With no
reference frame configured it is the identity. -/
def VertexGrid.getCoords (g : VertexGrid) (x y : ℚ) : ℚ × ℚ :=
  match g.frame with
  | none => (x, y)
  | some (xo, yo, c, s) =>
    (qadd xo (qsub (qmul c x) (qmul s y)), qadd yo (qadd (qmul s x) (qmul c y)))

/-- Kernel-reducible embedding of an integer into `ℚ`. -/
def qofInt (n : Int) : ℚ := mkRat n 1

theorem qofInt_eq (n : Int) : qofInt n = (n : ℚ) := by
  rw [qofInt, Rat.mkRat_eq_div]
  simp

/-- Modelled from the spec: `is_clockwise` of `flopy.utils.geometry`
(repository code outside `src/`), the signed orientation of a vertex
ring — clockwise exactly when the shoelace signed area is negative. -/
def is_clockwise (xa ya : List ℚ) : Bool :=
  let pts := xa.zip ya
  let area2 := (edgesOf pts).foldl
    (fun s e => qadd s (qsub (qmul e.1.1 e.2.2) (qmul e.2.1 e.1.2))) 0
  qlt area2 0
where
  /-- Consecutive edge pairs of a ring, including the closing edge. -/
  edgesOf : List (ℚ × ℚ) → List ((ℚ × ℚ) × (ℚ × ℚ))
  | [] => []
  | p :: rest => (p :: rest).zip (rest ++ [p])

/-- Test that the point `(px, py)` lies on the closed segment from `a`
to `b` (collinear and inside the bounding box). -/
def onSeg (a b : ℚ × ℚ) (px py : ℚ) : Bool :=
  qeq (qmul (qsub b.1 a.1) (qsub py a.2)) (qmul (qsub b.2 a.2) (qsub px a.1))
    && qle (qmin a.1 b.1) px && qle px (qmax a.1 b.1)
    && qle (qmin a.2 b.2) py && qle py (qmax a.2 b.2)

/-- Test that `(px, py)` lies on the boundary of the polygon `pts`. -/
def onBoundary (pts : List (ℚ × ℚ)) (px py : ℚ) : Bool :=
  (is_clockwise.edgesOf pts).any (fun e => onSeg e.1 e.2 px py)

/-- Ray-crossing test for one edge: the horizontal ray from `(px, py)`
toward `+x` crosses the half-open edge `(a, b]`-in-`y`. -/
def edgeCross (a b : ℚ × ℚ) (px py : ℚ) : Bool :=
  (qlt py a.2 != qlt py b.2)
    && qlt px (qadd (qdiv (qmul (qsub b.1 a.1) (qsub py a.2)) (qsub b.2 a.2)) a.1)

/-- Crossing-parity test: `(px, py)` lies strictly inside the polygon
`pts` (meaningful only for points not on the boundary). -/
def strictInside (pts : List (ℚ × ℚ)) (px py : ℚ) : Bool :=
  (is_clockwise.edgesOf pts).foldl
    (fun acc e => if edgeCross e.1 e.2 px py then !acc else acc) false

/-- Modelled from the spec: the external polygon-containment routine
(`matplotlib.path.Path.contains_point` with a `radius` argument), in the
exact-arithmetic limit of the infinitesimal tolerance. The dilation
direction depends on the ring's winding: a counter-clockwise ring is
inflated by a positive radius, a clockwise ring by a negative one (spec
§4.4 and §9). Inflation by an infinitesimal radius admits exactly the
interior plus the boundary; the shrunken region admits the interior only. -/
def containsPoint (pts : List (ℚ × ℚ)) (px py : ℚ) (radius : ℚ) : Bool :=
  let expand :=
    if is_clockwise (pts.map Prod.fst) (pts.map Prod.snd) then qlt radius 0 else qlt 0 radius
  if onBoundary pts px py then expand else strictInside pts px py

/-- List indexing that raises `IndexError` when out of range. -/
def getQ (row : List ℚ) (i : ℕ) : Except GErr ℚ :=
  match row.get? i with
  | some q => .ok q
  | none => .error .indexErr

/-- Lookup in the `vertexdict` comprehension `{v[0]: [v[1], v[2], v[3]]}`:
duplicate ids keep the last occurrence, as in a Python dict; a missing
key is a `KeyError`. -/
def vertLookup (vs : List (ℚ × ℚ × ℚ × ℚ)) (key : Int) : Option (ℚ × ℚ × ℚ) :=
  (vs.reverse.find? (fun v => qeq v.1 (qofInt key))).map (fun v => v.2)

/-- Derived geometry bundles: `cellcenters` is `(ccx, ccy, ccz)` and
`xyzgrid` is `(xv, yv, zv)`. -/
structure GeomData where
  ccx : List ℚ
  ccy : List ℚ
  ccz : List ℚ
  xv : List (List ℚ)
  yv : List (List ℚ)
  zv : List (List ℚ)
deriving DecidableEq, Repr

/-- Per-cell result of the 2-D branch of `_build_grid_geometry_info`. -/
structure Cell2DGeom where
  xc : ℚ
  yc : ℚ
  xs : List ℚ
  ys : List ℚ
deriving DecidableEq, Repr

/-- Per-cell result of the 1-D branch of `_build_grid_geometry_info`. -/
structure Cell1DGeom where
  xc : ℚ
  yc : ℚ
  zc : ℚ
  xs : List ℚ
  ys : List ℚ
  zs : List ℚ
deriving DecidableEq, Repr

/-- One iteration of the 2-D loop of `_build_grid_geometry_info`:
centers from `cell2d[1]`, `cell2d[2]`, vertex ids from `cell2d[4:]`,
each id resolved against the vertex table. -/
def buildCell2d (g : VertexGrid) (row : List ℚ) : Except GErr Cell2DGeom := do
  let xc ← getQ row 1
  let yc ← getQ row 2
  let ids := (row.drop 4).map pyInt
  let pts ← ids.mapM (fun i =>
    match vertLookup g._vertices i with
    | some v => Except.ok (v.1, v.2.1)
    | none => Except.error GErr.keyErr)
  return { xc := xc, yc := yc, xs := pts.map Prod.fst, ys := pts.map Prod.snd }

/-- One iteration of the 1-D loop of `_build_grid_geometry_info`:
centers from `cell1d[1..3]` and — exactly as in the source — vertex ids
from `cell1d[3:]`, i.e. including the slot holding the z-center. -/
def buildCell1d (g : VertexGrid) (row : List ℚ) : Except GErr Cell1DGeom := do
  let xc ← getQ row 1
  let yc ← getQ row 2
  let zc ← getQ row 3
  let ids := (row.drop 3).map pyInt
  let pts ← ids.mapM (fun i =>
    match vertLookup g._vertices i with
    | some v => Except.ok v
    | none => Except.error GErr.keyErr)
  return { xc := xc, yc := yc, zc := zc, xs := pts.map (fun p => p.1),
           ys := pts.map (fun p => p.2.1), zs := pts.map (fun p => p.2.2) }

/-- Modelled from the spec: the external elevation-midpoint routine
`_zcoords` (repository code outside `src/`), producing per-cell vertex
elevations and per-cell center elevations aligned to the cell ordering;
with incomplete elevation data it yields empty bundles. Only its success
and alignment matter to the claims. -/
def zcoords (g : VertexGrid) : List (List ℚ) × List ℚ :=
  match g._top, g._botm with
  | some top, some botm =>
    ((List.range g.ncpl).map (fun c => top.getD c 0 :: botm.map (fun row => row.getD c 0)),
     (List.range g.ncpl).map (fun c => qdiv (qadd (top.getD c 0) ((botm.headD []).getD c 0)) 2))
  | _, _ => ([], [])

/-- Reference-frame pass of `_build_grid_geometry_info`: when
`_has_ref_coordinates`, every center and every ring coordinate is run
through `get_coords`. -/
def applyFrame (g : VertexGrid) (d : GeomData) : GeomData :=
  if g.frame.isSome then
    let cc := (d.ccx.zip d.ccy).map (fun p => g.getCoords p.1 p.2)
    let rings := (d.xv.zip d.yv).map (fun rc =>
      let pts := (rc.1.zip rc.2).map (fun p => g.getCoords p.1 p.2)
      (pts.map Prod.fst, pts.map Prod.snd))
    { ccx := cc.map Prod.fst, ccy := cc.map Prod.snd, ccz := d.ccz,
      xv := rings.map Prod.fst, yv := rings.map Prod.snd, zv := d.zv }
  else d

/-- `_build_grid_geometry_info`: the 1-D branch when `_cell1d` is set
(iterating the `cell1d` accessor), else the 2-D branch over the `cell2d`
accessor (iterating `None` raises `TypeError` when `_cell2d` is unset). -/
def buildGeometry (g : VertexGrid) : Except GErr GeomData :=
  match g._cell1d with
  | some _ =>
    match g.cell1dRows with
    | .error e => .error e
    | .ok none => .error .typeErr
    | .ok (some rows) =>
      (rows.mapM (buildCell1d g)).map (fun cs => applyFrame g
        { ccx := cs.map (·.xc), ccy := cs.map (·.yc), ccz := cs.map (·.zc),
          xv := cs.map (·.xs), yv := cs.map (·.ys), zv := cs.map (·.zs) })
  | none =>
    match g.cell2dRows with
    | none => .error .typeErr
    | some rows =>
      (rows.mapM (buildCell2d g)).map (fun cs =>
        let z := zcoords g
        applyFrame g
          { ccx := cs.map (·.xc), ccy := cs.map (·.yc), ccz := z.2,
            xv := cs.map (·.xs), yv := cs.map (·.ys), zv := z.1 })

/-- Property `xyzvertices` (bundle `xyzgrid`). The generation-stamped
cache returns the build output; absent any mutation (mutation is outside
the embedded fragment) cached and freshly built data coincide, and the
owned copy equals the no-copy view by the cache contract, so the cache
layer is value-transparent here. -/
def VertexGrid.xyzvertices (g : VertexGrid) :
    Except GErr (List (List ℚ) × List (List ℚ) × List (List ℚ)) :=
  (buildGeometry g).map (fun d => (d.xv, d.yv, d.zv))

/-- Property `xyzcellcenters` (bundle `cellcenters`), cache-transparent
as for `xyzvertices`. -/
def VertexGrid.xyzcellcenters (g : VertexGrid) :
    Except GErr (List ℚ × List ℚ × List ℚ) :=
  (buildGeometry g).map (fun d => (d.ccx, d.ccy, d.ccz))

/-- Value returned by `intersect`: a plain cell id, a `(layer, cell)`
pair, or the not-a-number sentinels `np.nan` / `(np.nan, np.nan)` used
in forgive mode. -/
inductive IntersectResult
  | cell (i : ℕ)
  | layCell (lay i : ℕ)
  | nanCell
  | nanPair
deriving DecidableEq, Repr

/-- Radius magnitude `1e-9` used by `intersect` (spec: a tunable
tolerance, modelled exactly). -/
def epsRadius : ℚ := mkRat 1 1000000000

/-- One cell's test inside the `intersect` loop: the bounding-box
rejection (`np.any(x <= xa) and np.any(x >= xa)` and likewise in `y`)
followed by the tolerance-inflated containment test, with the radius
sign chosen from the ring's winding. -/
def cellMatch (xa ya : List ℚ) (x y : ℚ) : Bool :=
  xa.any (fun v => qle x v) && xa.any (fun v => qle v x)
    && ya.any (fun v => qle y v) && ya.any (fun v => qle v y)
    && (let radius := if is_clockwise xa ya then qneg epsRadius else epsRadius
        containsPoint (xa.zip ya) x y radius)

/-- Element access into `top_botm` (`concat(top[None], botm)`), totalised
with default `0`: for a complete grid every access made by `intersect`
is in range, and no theorem exercises an incomplete grid on the z-path. -/
def VertexGrid.topBotmD (g : VertexGrid) (lay i : ℕ) : ℚ :=
  ((g._top.getD [] :: g._botm.getD []) |>.getD lay []).getD i 0

/-- Layer scan of `intersect` for a matched cell when `z` is supplied:
first `lay` with `top_botm[lay, i] >= z >= top_botm[lay+1, i]`. -/
def layScan (g : VertexGrid) (i : ℕ) (z : ℚ) : Option ℕ :=
  (List.range g.nlay).find?
    (fun lay => qle z (g.topBotmD lay i) && qle (g.topBotmD (lay + 1) i) z)

/-- Main loop of `intersect` over `range(ncpl)`, structurally recursing
on the number of remaining cells; `i` is the current cell index.
A matched cell with `z` supplied but no matching layer falls through to
the next cell, exactly as the Python `for` does. -/
def isectScan (g : VertexGrid) (xv yv : List (List ℚ)) (x y : ℚ) (z : Option ℚ) :
    (remaining : ℕ) → (i : ℕ) → Except GErr (Option IntersectResult)
  | 0, _ => .ok none
  | n + 1, i =>
    match xv.get? i, yv.get? i with
    | some xa, some ya =>
      if cellMatch xa ya x y then
        match z with
        | none => .ok (some (.cell i))
        | some zq =>
          match layScan g i zq with
          | some lay => .ok (some (.layCell lay i))
          | none => isectScan g xv yv x y z n (i + 1)
      else isectScan g xv yv x y z n (i + 1)
    | _, _ => .error .indexErr

/-- `VertexGrid.intersect(x, y, z, local, forgive)`. -/
def VertexGrid.intersect (g : VertexGrid) (x y : ℚ) (z : Option ℚ)
    (loc forgive : Bool) : Except GErr IntersectResult :=
  let p := if loc then g.getCoords x y else (x, y)
  match g.xyzvertices with
  | .error e => .error e
  | .ok (xv, yv, _) =>
    match isectScan g xv yv p.1 p.2 z g.ncpl 0 with
    | .error e => .error e
    | .ok (some r) => .ok r
    | .ok none =>
      if forgive then .ok (if z.isSome then .nanPair else .nanCell)
      else .error .outside

/-- The `while cellid >= self.ncpl` loop of `get_cell_vertices`, with a
fuel argument making the recursion structural; `fuel = cellid.toNat + 1`
suffices whenever `ncpl ≥ 1`, and exhaustion (`ncpl = 0`, where Python
loops forever) is flagged as `nonterm`. -/
def wrapGo (ncpl nnodes : ℕ) : ℕ → Int → Except GErr Int
  | 0, _ => .error .nonterm
  | fuel + 1, cellid =>
    if (ncpl : Int) ≤ cellid then
      if (nnodes : Int) < cellid then .error .indexOut
      else wrapGo ncpl nnodes fuel (cellid - ncpl)
    else .ok cellid

/-- Index normalisation of `get_cell_vertices`: repeatedly subtract
`ncpl` while `cellid >= ncpl`, raising `IndexError` when
`cellid > nnodes`. -/
def wrapCellid (ncpl nnodes : ℕ) (cellid : Int) : Except GErr Int :=
  wrapGo ncpl nnodes (cellid.toNat + 1) cellid

/-- Body of `get_cell_vertices` after the index loop: enter no-copy
mode, read the vertex rings (Python list indexing, so a negative index
counts from the end), zip them, restore copy mode. The returned `Bool`
is the `_copy_cache` flag when the call terminates; `c` is its value on
entry. An exception escaping after `self._copy_cache = False` leaves the
flag `false`. -/
def afterWrap (g : VertexGrid) (cid : Int) (_c : Bool) :
    Except GErr (List (ℚ × ℚ)) × Bool :=
  match g.xyzvertices with
  | .error e => (.error e, false)
  | .ok (xv, yv, _) =>
    match pyGet xv cid, pyGet yv cid with
    | some xa, some ya => (.ok (xa.zip ya), true)
    | _, _ => (.error .indexErr, false)
  -- the flag argument `c` is only reported by the caller on the paths
  -- that never reach `self._copy_cache = False`

/-- `VertexGrid.get_cell_vertices(cellid)` with the `_copy_cache` flag
threaded: the explicit `IndexError` is raised before the flag is ever
touched, so that path reports the entry value `c`. -/
def get_cell_vertices (g : VertexGrid) (cellid : Int) (c : Bool) :
    Except GErr (List (ℚ × ℚ)) × Bool :=
  match wrapCellid g.ncpl g.nnodes cellid with
  | .error e => (.error e, c)
  | .ok cid => afterWrap g cid c

/-- Property `VertexGrid.extent` with the `_copy_cache` flag threaded.
The flag is set back to `true` after the two `np.hstack` reads and
before the `np.min`/`np.max` calls; `np.hstack` of an empty list raises
before that restore, `np.min` of an empty array raises after it. -/
def extent (g : VertexGrid) (_c : Bool) : Except GErr (ℚ × ℚ × ℚ × ℚ) × Bool :=
  match g.xyzvertices with
  | .error e => (.error e, false)
  | .ok (xv, yv, _) =>
    if xv.isEmpty || yv.isEmpty then (.error .valueEmpty, false)
    else
      let xs := xv.flatten
      let ys := yv.flatten
      match xs, ys with
      | x0 :: xr, y0 :: yr =>
        (.ok (xr.foldl qmin x0, xr.foldl qmax x0, yr.foldl qmin y0, yr.foldl qmax y0), true)
      | _, _ => (.error .valueEmpty, true)

/-- Inner work of `grid_lines`: for every cell and every vertex index
`ix`, the segment from vertex `ix - 1` (Python negative indexing, so the
first segment closes the ring) to vertex `ix`. -/
def linesOf (xv yv : List (List ℚ)) :
    Except GErr (List ((ℚ × ℚ) × (ℚ × ℚ))) := do
  let cells ← xv.enum.mapM (fun nc => do
    let yrow ← match yv.get? nc.1 with
      | some r => Except.ok r
      | none => Except.error GErr.indexErr
    (List.range nc.2.length).mapM (fun ix => do
      let x0 ← match pyGet nc.2 ((ix : Int) - 1) with
        | some v => Except.ok v
        | none => Except.error GErr.indexErr
      let y0 ← match pyGet yrow ((ix : Int) - 1) with
        | some v => Except.ok v
        | none => Except.error GErr.indexErr
      let x1 ← match pyGet nc.2 (ix : Int) with
        | some v => Except.ok v
        | none => Except.error GErr.indexErr
      let y1 ← match pyGet yrow (ix : Int) with
        | some v => Except.ok v
        | none => Except.error GErr.indexErr
      return ((x0, y0), (x1, y1))))
  return cells.flatten

/-- Property `VertexGrid.grid_lines` with the `_copy_cache` flag
threaded: the flag is restored only on the normal exit. -/
def grid_lines (g : VertexGrid) (_c : Bool) :
    Except GErr (List ((ℚ × ℚ) × (ℚ × ℚ))) × Bool :=
  match g.xyzvertices with
  | .error e => (.error e, false)
  | .ok (xv, yv, _) =>
    match linesOf xv yv with
    | .error e => (.error e, false)
    | .ok ls => (.ok ls, true)

/-- Client array passed to `get_plottable_layer_array`, by rank. Rank 0
stands for any rank other than 1, 2 or 3 (the final `else` branch).
Numpy arrays are rectangular; `shape[0]` of a rank-3 array is the outer
length and `shape[1]` the length of its first element. -/
inductive NpArr
  | r0
  | r1 (d : List ℚ)
  | r2 (d : List (List ℚ))
  | r3 (d : List (List (List ℚ)))
deriving DecidableEq, Repr

/-- `reshape(nlay, ncpl)` of a flat array whose length is `nlay * ncpl`:
split into chunks of `ncpl`. The fuel makes the recursion structural;
`fuel = l.length` suffices for `k ≥ 1` (for `k = 0` the reshape is
degenerate and never exercised). -/
def chunkGo (k : ℕ) : ℕ → List ℚ → List (List ℚ)
  | 0, _ => []
  | _, [] => []
  | f + 1, l => l.take k :: chunkGo k f (l.drop k)

/-- Split a flat list into rows of length `k`. -/
def reshapeRows (k : ℕ) (l : List ℚ) : List (List ℚ) := chunkGo k l.length l

/-- Numpy row indexing `a[layer, :]`; out of range raises `IndexError`. -/
def layerIdx (rows : List (List ℚ)) (layer : ℕ) : Except GErr (List ℚ) :=
  match rows.get? layer with
  | some r => .ok r
  | none => .error .indexErr

/-- Modelled from the spec: `get_plottable_layer_shape` of the base
`Grid` class (repository code outside `src/`) — for a vertex grid the
required plottable shape is `(ncpl,)`. The final
`assert plotarray.shape == required_shape` of `get_plottable_layer_array`
therefore checks that the result has length `ncpl`. -/
def checkAssert (g : VertexGrid) (row : List ℚ) : Except GErr (List ℚ) :=
  if row.length = g.ncpl then .ok row else .error .assertFail

/-- Branch logic of `get_plottable_layer_array` before the final assert:
rank 3 squeezes a leading size-1 axis (axis 0 first, else axis 1, else
`ValueError`) and indexes by layer; rank 2 indexes by layer; rank 1 is
reshaped and indexed only when its length is `nnodes`, otherwise passed
through unchanged; any other rank is a `ValueError`. -/
def plotBranch (g : VertexGrid) (a : NpArr) (layer : ℕ) : Except GErr (List ℚ) :=
  match a with
  | .r3 d =>
    if d.length = 1 then layerIdx (d.headD []) layer
    else if (d.headD []).length = 1 then layerIdx (d.map (fun r => r.headD [])) layer
    else .error .valueDim3
  | .r2 d => layerIdx d layer
  | .r1 d =>
    if d.length = g.nnodes then layerIdx (reshapeRows g.ncpl d) layer
    else .ok d
  | .r0 => .error .valueRank

/-- `VertexGrid.get_plottable_layer_array(a, layer)`: the branch logic
followed by the assert on the result's shape. -/
def get_plottable_layer_array (g : VertexGrid) (a : NpArr) (layer : ℕ) :
    Except GErr (List ℚ) :=
  match plotBranch g a layer with
  | .ok row => checkAssert g row
  | .error e => .error e

/-- Vertex table shared by the two-cell fixtures: the six corners of two
adjacent unit squares, ids `0..5`. -/
def vertsTwoSquares : List (ℚ × ℚ × ℚ × ℚ) :=
  [(0, 0, 0, 0), (1, 1, 0, 0), (2, 2, 0, 0), (3, 0, 1, 0), (4, 1, 1, 0), (5, 2, 1, 0)]

/-- Cell table of the spec's boundary tie-break fixture: cell `0` is the
unit square `[(0,0),(1,0),(1,1),(0,1)]`, cell `1` the unit square
`[(1,0),(2,0),(2,1),(1,1)]`, sharing the edge `x = 1`; each row is
`[icell2d, xc, yc, ncvert, icvert...]`. -/
def cellsTwoSquares : List (List (Option ℚ)) :=
  [[some 0, some (mkRat 1 2), some (mkRat 1 2), some 4, some 0, some 1, some 4, some 3],
   [some 1, some (mkRat 3 2), some (mkRat 1 2), some 4, some 1, some 2, some 5, some 4]]

/-- Two-cell, single-layer fixture grid (no elevation data, no frame). -/
def g2c : VertexGrid :=
  mkVertexGrid vertsTwoSquares (some cellsTwoSquares) none none none none none none

/-- Variant of `g2c` in which cell `1`'s recorded center is `(1/2, 1/2)`,
a point inside cell `0`: cell centers are free input data, nothing ties
them to the cell's polygon. -/
def g2bad : VertexGrid :=
  mkVertexGrid vertsTwoSquares
    (some
      [[some 0, some (mkRat 1 2), some (mkRat 1 2), some 4, some 0, some 1, some 4, some 3],
       [some 1, some (mkRat 1 2), some (mkRat 1 2), some 4, some 1, some 2, some 5, some 4]])
    none none none none none none

/-- Two-cell, two-layer fixture: the `g2c` topology with `top = [1, 1]`
and `botm = [[0, 0], [-1, -1]]`, hence `nlay = 2`, `ncpl = 2`,
`nnodes = 4`. -/
def g3 : VertexGrid :=
  mkVertexGrid vertsTwoSquares (some cellsTwoSquares)
    (some [1, 1]) (some [[0, 0], [-1, -1]]) none none none none

/-- Fixture for the `cell1d` accessor defect: a grid constructed with a
`cell1d` table (row `[cellid, xc, yc, zc, v0, v1]`) and no `cell2d`
table. -/
def gC1d : VertexGrid :=
  mkVertexGrid [(0, 0, 0, 0), (1, 1, 0, 0)] none none none none none
    (some [[some 0, some (mkRat 1 2), some 0, some 0, some 0, some 1]]) none

/-- Fixture whose geometry rebuild raises: its single cell references
vertex ids `1` and `2`, absent from the vertex table (`KeyError`). -/
def gBadRef : VertexGrid :=
  mkVertexGrid [(0, 0, 0, 0)]
    (some [[some 0, some (mkRat 1 2), some (mkRat 1 2), some 3, some 0, some 1, some 2]])
    none none none none none none

/-- Bounded, decidable statement that no cell of the scan range matches
the point `(x, y)` (and every ring lookup succeeds). -/
def noCellMatch (g : VertexGrid) (xv yv : List (List ℚ)) (x y : ℚ) : Bool :=
  (List.range g.ncpl).all fun j =>
    match xv.get? j, yv.get? j with
    | some xa, some ya => !(cellMatch xa ya x y)
    | _, _ => false

/-- Bounded, decidable statement that cell `i` is the first match of the
scan for the point `(x, y)`: `i` is in range, every earlier cell fails
the test, and cell `i` passes it. -/
def scanHitsAt (g : VertexGrid) (xv yv : List (List ℚ)) (x y : ℚ) (i : ℕ) : Bool :=
  decide (i < g.ncpl)
    && ((List.range i).all fun j =>
      match xv.get? j, yv.get? j with
      | some xa, some ya => !(cellMatch xa ya x y)
      | _, _ => false)
    && (match xv.get? i, yv.get? i with
      | some xa, some ya => cellMatch xa ya x y
      | _, _ => false)

theorem match_gets_true {xv yv : List (List ℚ)} {j : ℕ} {f : List ℚ → List ℚ → Bool}
    (h : (match xv.get? j, yv.get? j with
          | some xa, some ya => f xa ya
          | _, _ => false) = true) :
    ∃ xa ya, xv.get? j = some xa ∧ yv.get? j = some ya ∧ f xa ya = true := by
  cases hx : xv.get? j with
  | none => rw [hx] at h; cases yv.get? j <;> simp at h
  | some xa =>
    cases hy : yv.get? j with
    | none => rw [hx, hy] at h; simp at h
    | some ya => rw [hx, hy] at h; exact ⟨xa, ya, rfl, rfl, h⟩

theorem isectScan_succ (g : VertexGrid) (xv yv : List (List ℚ)) (x y : ℚ) (z : Option ℚ)
    (n i : ℕ) :
    isectScan g xv yv x y z (n + 1) i =
      match xv.get? i, yv.get? i with
      | some xa, some ya =>
        if cellMatch xa ya x y then
          match z with
          | none => .ok (some (.cell i))
          | some zq =>
            match layScan g i zq with
            | some lay => .ok (some (.layCell lay i))
            | none => isectScan g xv yv x y z n (i + 1)
        else isectScan g xv yv x y z n (i + 1)
      | _, _ => .error .indexErr := rfl

theorem isectScan_none (g : VertexGrid) (xv yv : List (List ℚ)) (x y : ℚ) (z : Option ℚ) :
    ∀ (n i : ℕ),
      (∀ j, j < n → ∃ xa ya, xv.get? (i + j) = some xa ∧ yv.get? (i + j) = some ya ∧
        cellMatch xa ya x y = false) →
      isectScan g xv yv x y z n i = .ok none := by
  intro n
  induction n with
  | zero => intro i _; rfl
  | succ m ih =>
    intro i h
    obtain ⟨xa, ya, hx, hy, hm⟩ := h 0 (Nat.succ_pos m)
    rw [Nat.add_zero] at hx hy
    rw [isectScan_succ, hx, hy]
    simp only [hm, Bool.false_eq_true, if_false]
    exact ih (i + 1) (fun j hj => by
      have := h (j + 1) (Nat.succ_lt_succ hj)
      rwa [show i + (j + 1) = i + 1 + j by omega] at this)

theorem isectScan_advance (g : VertexGrid) (xv yv : List (List ℚ)) (x y : ℚ) (z : Option ℚ) :
    ∀ (k n i : ℕ),
      (∀ j, j < k → ∃ xa ya, xv.get? (i + j) = some xa ∧ yv.get? (i + j) = some ya ∧
        cellMatch xa ya x y = false) →
      k ≤ n →
      isectScan g xv yv x y z n i = isectScan g xv yv x y z (n - k) (i + k) := by
  intro k
  induction k with
  | zero => intro n i _ _; rw [Nat.sub_zero, Nat.add_zero]
  | succ m ih =>
    intro n i h hk
    obtain ⟨n', rfl⟩ : ∃ n', n = n' + 1 := ⟨n - 1, by omega⟩
    obtain ⟨xa, ya, hx, hy, hm⟩ := h 0 (Nat.succ_pos m)
    rw [Nat.add_zero] at hx hy
    rw [isectScan_succ, hx, hy]
    simp only [hm, Bool.false_eq_true, if_false]
    rw [ih n' (i + 1) (fun j hj => by
        have := h (j + 1) (Nat.succ_lt_succ hj)
        rwa [show i + (j + 1) = i + 1 + j by omega] at this) (by omega)]
    congr 1
    · omega
    · omega

theorem wrapGo_indexOut {ncpl nnodes : ℕ} :
    ∀ (f : ℕ) (c : Int), wrapGo ncpl nnodes f c = .error .indexOut → (nnodes : Int) < c := by
  intro f
  induction f with
  | zero => intro c h; simp [wrapGo] at h
  | succ m ih =>
    intro c h
    rw [wrapGo] at h
    by_cases h1 : (ncpl : Int) ≤ c
    · rw [if_pos h1] at h
      by_cases h2 : (nnodes : Int) < c
      · exact h2
      · rw [if_neg h2] at h
        have := ih (c - ncpl) h
        omega
    · rw [if_neg h1] at h
      exact absurd h (by simp)

theorem wrapGo_wrap {ncpl nnodes : ℕ} (c : ℕ) (hc : c < ncpl) :
    ∀ (k f v : ℕ), v = c + k * ncpl → v ≤ nnodes → k < f →
      wrapGo ncpl nnodes f (v : Int) = .ok (c : Int) := by
  intro k
  induction k with
  | zero =>
    intro f v hv _ hf
    obtain ⟨f', rfl⟩ : ∃ f', f = f' + 1 := ⟨f - 1, by omega⟩
    subst hv
    rw [wrapGo]
    rw [if_neg (by push_cast; omega)]
    norm_num
  | succ m ih =>
    intro f v hv hn hf
    obtain ⟨f', rfl⟩ : ∃ f', f = f' + 1 := ⟨f - 1, by omega⟩
    rw [Nat.succ_mul] at hv
    have hge : ncpl ≤ v := by omega
    rw [wrapGo]
    rw [if_pos (by exact_mod_cast hge)]
    rw [if_neg (by
      have : v ≤ nnodes := hn
      omega)]
    rw [show (v : Int) - (ncpl : Int) = ((v - ncpl : ℕ) : Int) by push_cast [hge]; ring]
    exact ih f' (v - ncpl) (by omega) (by omega) (by omega)

theorem bind_error {α β : Type} {a : Except GErr α} {f : α → Except GErr β} {e : GErr}
    (h : (a >>= f) = .error e) : a = .error e ∨ ∃ v, a = .ok v ∧ f v = .error e := by
  cases a with
  | error e' =>
    left
    have : e' = e := by
      have hb : (Except.error e' >>= f) = (Except.error e' : Except GErr β) := rfl
      rw [hb] at h
      exact (Except.error.inj h)
    rw [this]
  | ok v => right; exact ⟨v, rfl, h⟩

theorem mapM_error {α β : Type} {f : α → Except GErr β} {e : GErr} :
    ∀ {l : List α}, l.mapM f = .error e → ∃ a ∈ l, f a = .error e := by
  intro l
  induction l with
  | nil => intro h; simp [List.mapM, List.mapM.loop, pure, Except.pure] at h
  | cons a t ih =>
    intro h
    rw [List.mapM_cons] at h
    rcases bind_error h with h1 | ⟨v, _, h2⟩
    · exact ⟨a, List.mem_cons_self a t, h1⟩
    · rcases bind_error h2 with h3 | ⟨w, _, h4⟩
      · obtain ⟨b, hb, hfb⟩ := ih h3
        exact ⟨b, List.mem_cons_of_mem a hb, hfb⟩
      · simp [pure, Except.pure] at h4

theorem map_error_iff {α β : Type} {x : Except GErr α} {f : α → β} {e : GErr} :
    x.map f = .error e ↔ x = .error e := by
  cases x <;> simp [Except.map]

theorem getQ_err {row : List ℚ} {i : ℕ} {e : GErr} (h : getQ row i = .error e) :
    e = .indexErr := by
  unfold getQ at h
  split at h
  · exact absurd h (by simp)
  · exact (Except.error.inj h).symm

theorem vertPts_err {g : VertexGrid} {ids : List Int} {e : GErr}
    {f : ℚ × ℚ × ℚ → ℚ × ℚ}
    (h : ids.mapM (fun i =>
      match vertLookup g._vertices i with
      | some v => Except.ok (f v)
      | none => Except.error GErr.keyErr) = .error e) : e = .keyErr := by
  obtain ⟨a, _, ha⟩ := mapM_error h
  split at ha
  · exact absurd ha (by simp)
  · exact (Except.error.inj ha).symm

theorem buildCell2d_err {g : VertexGrid} {row : List ℚ} {e : GErr}
    (h : buildCell2d g row = .error e) : e = .indexErr ∨ e = .keyErr := by
  unfold buildCell2d at h
  rcases bind_error h with h1 | ⟨xc, _, h1⟩
  · exact Or.inl (getQ_err h1)
  rcases bind_error h1 with h2 | ⟨yc, _, h2⟩
  · exact Or.inl (getQ_err h2)
  rcases bind_error h2 with h3 | ⟨pts, _, h3⟩
  · exact Or.inr (vertPts_err h3)
  · exact absurd h3 (by simp [pure, Except.pure])

theorem vertPts3_err {g : VertexGrid} {ids : List Int} {e : GErr}
    (h : ids.mapM (fun i =>
      match vertLookup g._vertices i with
      | some v => Except.ok v
      | none => Except.error GErr.keyErr) = .error e) : e = .keyErr := by
  obtain ⟨a, _, ha⟩ := mapM_error h
  split at ha
  · exact absurd ha (by simp)
  · exact (Except.error.inj ha).symm

theorem buildCell1d_err {g : VertexGrid} {row : List ℚ} {e : GErr}
    (h : buildCell1d g row = .error e) : e = .indexErr ∨ e = .keyErr := by
  unfold buildCell1d at h
  rcases bind_error h with h1 | ⟨xc, _, h1⟩
  · exact Or.inl (getQ_err h1)
  rcases bind_error h1 with h2 | ⟨yc, _, h2⟩
  · exact Or.inl (getQ_err h2)
  rcases bind_error h2 with h3 | ⟨zc, _, h3⟩
  · exact Or.inl (getQ_err h3)
  rcases bind_error h3 with h4 | ⟨pts, _, h4⟩
  · exact Or.inr (vertPts3_err h4)
  · exact absurd h4 (by simp [pure, Except.pure])

theorem buildGeometry_err {g : VertexGrid} {e : GErr} (h : buildGeometry g = .error e) :
    e = .indexErr ∨ e = .keyErr ∨ e = .typeErr := by
  unfold buildGeometry at h
  cases hc1 : g._cell1d with
  | some v =>
    rw [hc1] at h
    cases hr : g.cell1dRows with
    | error e' =>
      rw [hr] at h
      unfold VertexGrid.cell1dRows at hr
      rw [hc1] at hr
      cases hc2 : g._cell2d with
      | none =>
        rw [hc2] at hr
        rw [← Except.error.inj h, ← Except.error.inj hr]
        exact Or.inr (Or.inr rfl)
      | some rows => rw [hc2] at hr; exact absurd hr (by simp)
    | ok o =>
      rw [hr] at h
      cases o with
      | none => exact Or.inr (Or.inr (Except.error.inj h).symm)
      | some rows =>
        have hm := map_error_iff.mp h
        obtain ⟨r, _, hr2⟩ := mapM_error hm
        rcases buildCell1d_err hr2 with h' | h'
        · exact Or.inl h'
        · exact Or.inr (Or.inl h')
  | none =>
    rw [hc1] at h
    cases hc2 : g.cell2dRows with
    | none => rw [hc2] at h; exact Or.inr (Or.inr (Except.error.inj h).symm)
    | some rows =>
      rw [hc2] at h
      have hm := map_error_iff.mp h
      obtain ⟨r, _, hr2⟩ := mapM_error hm
      rcases buildCell2d_err hr2 with h' | h'
      · exact Or.inl h'
      · exact Or.inr (Or.inl h')

theorem xyzvertices_err {g : VertexGrid} {e : GErr} (h : g.xyzvertices = .error e) :
    e = .indexErr ∨ e = .keyErr ∨ e = .typeErr := by
  unfold VertexGrid.xyzvertices at h
  exact buildGeometry_err (map_error_iff.mp h)

/-- Claim C1: the point locator scans cell indices in ascending order
with first match winning, and the directional boundary tolerance admits
points lying exactly on a cell edge; on the two adjacent unit squares
`0 = [(0,0),(1,0),(1,1),(0,1)]` and `1 = [(1,0),(2,0),(2,1),(1,1)]` the
shared-edge midpoint `(1, 1/2)` lies on the boundary of both rings, both
cells pass the containment test, and `intersect(1, 0.5)` returns the
lower-indexed cell `0`. Both rings are counter-clockwise, so both get
the positive tolerance. -/
theorem claim_C1_tiebreak :
    VertexGrid.intersect g2c 1 (mkRat 1 2) none false false = .ok (.cell 0)
    ∧ onBoundary (List.zip [0, 1, 1, 0] [0, 0, 1, 1]) 1 (mkRat 1 2) = true
    ∧ onBoundary (List.zip [1, 2, 2, 1] [0, 0, 1, 1]) 1 (mkRat 1 2) = true
    ∧ cellMatch [1, 2, 2, 1] [0, 0, 1, 1] 1 (mkRat 1 2) = true
    ∧ is_clockwise [0, 1, 1, 0] [0, 0, 1, 1] = false
    ∧ is_clockwise [1, 2, 2, 1] [0, 0, 1, 1] = false := by
  decide

/-- Claim C3 (the code side of it): `get_cell_vertices(nnodes)` does NOT
signal the index error — on the 2-layer, 2-cell fixture `g3` (where
`nnodes = 4`) the call `get_cell_vertices(4)` wraps the index to `0` and
returns cell `0`'s vertex ring, because the guard tests
`cellid > nnodes` instead of `cellid >= nnodes`. -/
theorem claim_C3_nnodes_not_rejected :
    g3.nnodes = 4
    ∧ get_cell_vertices g3 4 true = (.ok [(0, 0), (1, 0), (1, 1), (0, 1)], true)
    ∧ (buildGeometry g3).map (fun d => d.xv.get? 0) = .ok (some [0, 1, 1, 0]) := by
  decide

/-- Claim C8 (the code side of it): on a grid constructed with a
`cell1d` table and no `cell2d` table, building the geometry bundles does
NOT succeed — the `cell1d` accessor iterates `self._cell2d`, which is
`None`, raising `TypeError`. -/
theorem claim_C8_cell1d_build_fails :
    gC1d._cell1d.isSome = true
    ∧ gC1d._cell2d = none
    ∧ buildGeometry gC1d = .error .typeErr
    ∧ gC1d.xyzcellcenters = .error .typeErr
    ∧ gC1d.xyzvertices = .error .typeErr := by
  decide

/-- Claim C2, counterexample: recorded cell centers are free input data,
so a grid may record for cell `1` a center lying inside cell `0`; on
such a grid (`g2bad`, whose `cellcenters` bundle stores `(1/2, 1/2)` for
both cells) `intersect` at cell `1`'s recorded center returns cell `0`,
not cell `1`. -/
theorem claim_C2_counterexample :
    g2bad.xyzcellcenters = .ok ([mkRat 1 2, mkRat 1 2], [mkRat 1 2, mkRat 1 2], [])
    ∧ VertexGrid.intersect g2bad (mkRat 1 2) (mkRat 1 2) none false false = .ok (.cell 0) := by
  decide

/-- Claim C4, counterexample: a rank-1 input of length 3 on the fixture
with `ncpl = 2`, `nnodes = 4` is passed through the branch logic
unchanged and fails the final assertion (`assertFail`), rather than
being rejected by one of the distinct pre-assert shape errors
(`valueDim3` / `valueRank`). -/
theorem claim_C4_counterexample :
    get_plottable_layer_array g3 (.r1 [1, 2, 3]) 0 = .error .assertFail
    ∧ GErr.assertFail ≠ GErr.valueDim3
    ∧ GErr.assertFail ≠ GErr.valueRank := by
  decide

/-- Claim C5, counterexample: a rank-3 input with BOTH leading axes of
size 1 (shape `(1, 1, 2)` on the `ncpl = 2` fixture) is not rejected
with a shape error — the first branch squeezes axis 0 and the layer
index succeeds. -/
theorem claim_C5_counterexample :
    ([[[5, 6]]] : List (List (List ℚ))).length = 1
    ∧ (([[[5, 6]]] : List (List (List ℚ))).headD []).length = 1
    ∧ get_plottable_layer_array g3 (.r3 [[[5, 6]]]) 0 = .ok [5, 6] := by
  decide

/-- Claim C9, counterexample: on a grid whose geometry rebuild raises
(`gBadRef` references missing vertex ids, a `KeyError`), `extent` exits
exceptionally after having set the cache to no-copy mode and never
restores it — the flag is left `false`, not restored to copy mode. -/
theorem claim_C9_counterexample :
    extent gBadRef true = (.error .keyErr, false) := by
  decide

/-- Success test for an embedded Python computation. -/
def isOk {α : Type} : Except GErr α → Bool
  | .ok _ => true
  | .error _ => false

theorem r2_no_valueDim3 (g : VertexGrid) (rows : List (List ℚ)) (layer : ℕ) :
    get_plottable_layer_array g (.r2 rows) layer ≠ .error .valueDim3 := by
  unfold get_plottable_layer_array plotBranch layerIdx
  dsimp only
  cases rows.get? layer with
  | none => simp
  | some r =>
    dsimp only
    unfold checkAssert
    split <;> simp

/-- Claim C4 (amended): a rank-1 input whose length is neither `ncpl`
nor `nlay*ncpl` is not rejected by a pre-assert shape error; it is
passed through to the final length check, which fails as the
assertion-style internal-consistency error — that assertion is reachable
and is the path that rejects such inputs. -/
theorem claim_C4_amended (g : VertexGrid) (l : List ℚ) (layer : ℕ)
    (h1 : l.length ≠ g.ncpl) (h2 : l.length ≠ g.nnodes) :
    get_plottable_layer_array g (.r1 l) layer = .error .assertFail := by
  simp [get_plottable_layer_array, plotBranch, checkAssert, h1, h2]

/-- Witness for `claim_C4_amended` at a concrete input. -/
theorem claim_C4_witness :
    ([1, 2, 3, 4, 5] : List ℚ).length ≠ g3.ncpl
    ∧ ([1, 2, 3, 4, 5] : List ℚ).length ≠ g3.nnodes
    ∧ get_plottable_layer_array g3 (.r1 [1, 2, 3, 4, 5]) 0 = .error .assertFail :=
  ⟨by decide, by decide, claim_C4_amended g3 [1, 2, 3, 4, 5] 0 (by decide) (by decide)⟩

/-- Claim C5 (amended): for a rank-3 input the shape error is signalled
exactly when NEITHER of the first two axes has size 1; when the first
axis has size 1 — including when both have — the array behaves as its
squeeze along axis 0, and otherwise, when the second axis has size 1, as
its squeeze along axis 1, in both cases indexed by `layer` like a rank-2
array. -/
theorem claim_C5_amended (g : VertexGrid) (d : List (List (List ℚ))) (layer : ℕ) :
    (get_plottable_layer_array g (.r3 d) layer = .error .valueDim3
      ↔ d.length ≠ 1 ∧ (d.headD []).length ≠ 1)
    ∧ (d.length = 1 →
        get_plottable_layer_array g (.r3 d) layer
          = get_plottable_layer_array g (.r2 (d.headD [])) layer)
    ∧ (d.length ≠ 1 → (d.headD []).length = 1 →
        get_plottable_layer_array g (.r3 d) layer
          = get_plottable_layer_array g (.r2 (d.map (fun r => r.headD []))) layer) := by
  have hax0 : d.length = 1 →
      get_plottable_layer_array g (.r3 d) layer
        = get_plottable_layer_array g (.r2 (d.headD [])) layer := by
    intro h1
    unfold get_plottable_layer_array plotBranch
    dsimp only
    rw [if_pos h1]
  have hax1 : d.length ≠ 1 → (d.headD []).length = 1 →
      get_plottable_layer_array g (.r3 d) layer
        = get_plottable_layer_array g (.r2 (d.map (fun r => r.headD []))) layer := by
    intro h1 h2
    unfold get_plottable_layer_array plotBranch
    dsimp only
    rw [if_neg h1, if_pos h2]
  refine ⟨⟨?_, ?_⟩, hax0, hax1⟩
  · intro h
    by_cases h1 : d.length = 1
    · rw [hax0 h1] at h
      exact absurd h (r2_no_valueDim3 g _ layer)
    · by_cases h2 : (d.headD []).length = 1
      · rw [hax1 h1 h2] at h
        exact absurd h (r2_no_valueDim3 g _ layer)
      · exact ⟨h1, h2⟩
  · rintro ⟨h1, h2⟩
    unfold get_plottable_layer_array plotBranch
    dsimp only
    rw [if_neg h1, if_neg h2]

/-- Witness for `claim_C5_amended`, applying both squeeze branches at
concrete inputs (shapes `(1, 2, 2)` and `(2, 1, 2)` on the `ncpl = 2`
fixture). -/
theorem claim_C5_witness :
    get_plottable_layer_array g3 (.r3 [[[1, 2], [3, 4]]]) 1
      = get_plottable_layer_array g3 (.r2 [[1, 2], [3, 4]]) 1
    ∧ get_plottable_layer_array g3 (.r3 [[[9, 9]], [[8, 8]]]) 0
      = get_plottable_layer_array g3 (.r2 [[9, 9], [8, 8]]) 0 :=
  ⟨(claim_C5_amended g3 [[[1, 2], [3, 4]]] 1).2.1 (by decide),
   (claim_C5_amended g3 [[[9, 9]], [[8, 8]]] 0).2.2 (by decide) (by decide)⟩

theorem intersect_unfold (g : VertexGrid) (x y : ℚ) (z : Option ℚ) (forgive : Bool) :
    g.intersect x y z false forgive =
      match g.xyzvertices with
      | .error e => .error e
      | .ok (xv, yv, _) =>
        match isectScan g xv yv x y z g.ncpl 0 with
        | .error e => .error e
        | .ok (some r) => .ok r
        | .ok none =>
          if forgive then .ok (if z.isSome then .nanPair else .nanCell)
          else .error .outside := rfl

/-- Claim C6: when no cell passes the containment test, `intersect`
raises the location-failure error if `forgive` is false, and with
`forgive` true returns the not-a-number sentinel — the pair
`(NaN, NaN)` when `z` was supplied, a single `NaN` otherwise. -/
theorem claim_C6_forgive (g : VertexGrid) (x y : ℚ) (z : Option ℚ) (d : GeomData)
    (hb : buildGeometry g = .ok d)
    (hnm : noCellMatch g d.xv d.yv x y = true) :
    g.intersect x y z false true = .ok (if z.isSome then .nanPair else .nanCell)
    ∧ g.intersect x y z false false = .error .outside := by
  have hv : g.xyzvertices = .ok (d.xv, d.yv, d.zv) := by
    unfold VertexGrid.xyzvertices
    rw [hb]
    rfl
  have hscan : isectScan g d.xv d.yv x y z g.ncpl 0 = .ok none := by
    apply isectScan_none
    intro j hj
    simp only [noCellMatch, List.all_eq_true, List.mem_range] at hnm
    obtain ⟨xa, ya, hxa, hya, hcm⟩ := match_gets_true (hnm j hj)
    refine ⟨xa, ya, ?_, ?_, ?_⟩
    · rwa [Nat.zero_add]
    · rwa [Nat.zero_add]
    · rwa [Bool.not_eq_true'] at hcm
  constructor <;>
    (rw [intersect_unfold, hv]
     dsimp only
     rw [hscan]
     rfl)

/-- Witness for `claim_C6_forgive`: the point `(10, 10)` lies outside
both cells of the fixture `g2c`. -/
theorem claim_C6_witness :
    VertexGrid.intersect g2c 10 10 none false true = .ok .nanCell
    ∧ VertexGrid.intersect g2c 10 10 none false false = .error .outside
    ∧ VertexGrid.intersect g2c 10 10 (some 0) false true = .ok .nanPair :=
  ⟨(claim_C6_forgive g2c 10 10 none
      ⟨[mkRat 1 2, mkRat 3 2], [mkRat 1 2, mkRat 1 2], [],
       [[0, 1, 1, 0], [1, 2, 2, 1]], [[0, 0, 1, 1], [0, 0, 1, 1]], []⟩
      (by decide) (by decide)).1,
   (claim_C6_forgive g2c 10 10 none
      ⟨[mkRat 1 2, mkRat 3 2], [mkRat 1 2, mkRat 1 2], [],
       [[0, 1, 1, 0], [1, 2, 2, 1]], [[0, 0, 1, 1], [0, 0, 1, 1]], []⟩
      (by decide) (by decide)).2,
   (claim_C6_forgive g2c 10 10 (some 0)
      ⟨[mkRat 1 2, mkRat 3 2], [mkRat 1 2, mkRat 1 2], [],
       [[0, 1, 1, 0], [1, 2, 2, 1]], [[0, 0, 1, 1], [0, 0, 1, 1]], []⟩
      (by decide) (by decide)).1⟩

/-- Claim C2 (amended): `intersect` on a cell's recorded center returns
exactly that cell's id whenever that center passes the cell's own
bounding-box-plus-containment test and fails the test of every
lower-indexed cell; the scan is ascending with first match winning, so
those are precisely the centers the claim holds for. -/
theorem claim_C2_amended (g : VertexGrid) (i : ℕ) (d : GeomData) (cx cy : ℚ)
    (hb : buildGeometry g = .ok d)
    (_hcx : d.ccx.get? i = some cx) (_hcy : d.ccy.get? i = some cy)
    (hm : scanHitsAt g d.xv d.yv cx cy i = true) :
    g.intersect cx cy none false false = .ok (.cell i) := by
  simp only [scanHitsAt, Bool.and_eq_true, decide_eq_true_eq, List.all_eq_true,
    List.mem_range] at hm
  obtain ⟨⟨hi, hall⟩, hhit⟩ := hm
  obtain ⟨xa, ya, hxa, hya, hcm⟩ := match_gets_true hhit
  have hv : g.xyzvertices = .ok (d.xv, d.yv, d.zv) := by
    unfold VertexGrid.xyzvertices
    rw [hb]
    rfl
  have hscan : isectScan g d.xv d.yv cx cy none g.ncpl 0 = .ok (some (.cell i)) := by
    rw [isectScan_advance g d.xv d.yv cx cy none i g.ncpl 0
      (fun j hj => by
        obtain ⟨xb, yb, hxb, hyb, hcb⟩ := match_gets_true (hall j hj)
        refine ⟨xb, yb, ?_, ?_, ?_⟩
        · rwa [Nat.zero_add]
        · rwa [Nat.zero_add]
        · rwa [Bool.not_eq_true'] at hcb)
      (le_of_lt hi)]
    obtain ⟨m, hm2⟩ : ∃ m, g.ncpl - i = m + 1 := ⟨g.ncpl - i - 1, by omega⟩
    rw [hm2, Nat.zero_add, isectScan_succ, hxa, hya]
    simp [hcm]
  rw [intersect_unfold, hv]
  dsimp only
  rw [hscan]

/-- Witness for `claim_C2_amended`: cell `1`'s recorded center
`(3/2, 1/2)` of the fixture `g2c` fails cell `0`'s test and passes cell
`1`'s, and `intersect` there returns cell `1`. -/
theorem claim_C2_witness :
    VertexGrid.intersect g2c (mkRat 3 2) (mkRat 1 2) none false false = .ok (.cell 1) :=
  claim_C2_amended g2c 1
    ⟨[mkRat 1 2, mkRat 3 2], [mkRat 1 2, mkRat 1 2], [],
     [[0, 1, 1, 0], [1, 2, 2, 1]], [[0, 0, 1, 1], [0, 0, 1, 1]], []⟩
    (mkRat 3 2) (mkRat 1 2) (by decide) (by decide) (by decide) (by decide)

/-- Claim C7: cell vertex geometry does not vary by layer — for every
cell `c` within the first layer and every layer offset `k` with
`c + k * ncpl` a valid node index, `get_cell_vertices(c + k * ncpl)`
returns exactly what `get_cell_vertices(c)` returns (the wrap loop
reduces the flattened node index back to `c`). -/
theorem claim_C7_layer_invariant (g : VertexGrid) (c k : ℕ) (flag : Bool)
    (h1 : c < g.ncpl) (h2 : c + k * g.ncpl < g.nnodes) :
    get_cell_vertices g ((c + k * g.ncpl : ℕ) : Int) flag
      = get_cell_vertices g ((c : ℕ) : Int) flag := by
  have hk : k ≤ k * g.ncpl := Nat.le_mul_of_pos_right k (by omega)
  have hw1 : wrapCellid g.ncpl g.nnodes ((c + k * g.ncpl : ℕ) : Int) = .ok (c : Int) := by
    unfold wrapCellid
    rw [Int.toNat_natCast]
    exact wrapGo_wrap c h1 k (c + k * g.ncpl + 1) (c + k * g.ncpl) rfl (le_of_lt h2)
      (by omega)
  have hw2 : wrapCellid g.ncpl g.nnodes ((c : ℕ) : Int) = .ok (c : Int) := by
    unfold wrapCellid
    rw [Int.toNat_natCast]
    exact wrapGo_wrap c h1 0 (c + 1) c (by ring) (by omega) (by omega)
  unfold get_cell_vertices
  rw [hw1, hw2]

/-- Witness for `claim_C7_layer_invariant` on the 2-layer fixture `g3`
(`ncpl = 2`): node index `3 = 1 + 1*2` resolves to the same vertex ring
as cell `1`. -/
theorem claim_C7_witness :
    get_cell_vertices g3 ((1 + 1 * g3.ncpl : ℕ) : Int) true
      = get_cell_vertices g3 ((1 : ℕ) : Int) true :=
  claim_C7_layer_invariant g3 1 1 true (by decide) (by decide)

/-- Claim C9 (amended): `extent`, `grid_lines` and `get_cell_vertices`
restore the `_copy_cache` flag to copy mode on every successful exit
(and the early index-error raise of `get_cell_vertices` happens before
the flag is touched); when the underlying cache read or rebuild raises,
however, the flag is left in no-copy mode — there is no
`try/finally`-style restore on the exception paths. -/
theorem claim_C9_amended (g : VertexGrid) (flag : Bool) (cellid : Int) :
    (isOk (extent g flag).1 = true → (extent g flag).2 = true)
    ∧ (isOk (grid_lines g flag).1 = true → (grid_lines g flag).2 = true)
    ∧ (isOk (get_cell_vertices g cellid flag).1 = true
        → (get_cell_vertices g cellid flag).2 = true) := by
  refine ⟨?_, ?_, ?_⟩
  · unfold extent
    cases g.xyzvertices with
    | error e => intro h; simp [isOk] at h
    | ok v =>
      obtain ⟨xv, yv, zv⟩ := v
      dsimp only
      split
      · intro h; simp [isOk] at h
      · split
        · intro _; rfl
        · intro h; simp [isOk] at h
  · unfold grid_lines
    cases g.xyzvertices with
    | error e => intro h; simp [isOk] at h
    | ok v =>
      obtain ⟨xv, yv, zv⟩ := v
      dsimp only
      cases linesOf xv yv with
      | error e => intro h; simp [isOk] at h
      | ok ls => intro _; rfl
  · unfold get_cell_vertices
    cases wrapCellid g.ncpl g.nnodes cellid with
    | error e => intro h; simp [isOk] at h
    | ok cid =>
      dsimp only
      unfold afterWrap
      cases g.xyzvertices with
      | error e => intro h; simp [isOk] at h
      | ok v =>
        obtain ⟨xv, yv, zv⟩ := v
        dsimp only
        cases pyGet xv cid with
        | none => intro h; simp [isOk] at h
        | some xa =>
          cases pyGet yv cid with
          | none => intro h; simp [isOk] at h
          | some ya => intro _; rfl

/-- Witness for `claim_C9_amended`: the three operations succeed on the
fixture `g2c` and leave the flag in copy mode. -/
theorem claim_C9_witness :
    (extent g2c true).2 = true
    ∧ (grid_lines g2c true).2 = true
    ∧ (get_cell_vertices g2c 0 true).2 = true :=
  ⟨(claim_C9_amended g2c true 0).1 (by decide),
   (claim_C9_amended g2c true 0).2.1 (by decide),
   (claim_C9_amended g2c true 0).2.2 (by decide)⟩

/-- Claim C10: `get_cell_vertices` raises its explicit `IndexError` only
for `cellid` strictly greater than `nnodes`, and a negative `cellid`
such as `-1` is accepted without error, returning the last cell's
vertex ring by Python negative-index lookup. -/
theorem claim_C10_negative_accepted :
    (∀ (g : VertexGrid) (cellid : Int) (flag : Bool),
      (get_cell_vertices g cellid flag).1 = .error .indexOut → (g.nnodes : Int) < cellid)
    ∧ get_cell_vertices g3 (-1) true = (.ok [(1, 0), (2, 0), (2, 1), (1, 1)], true) := by
  constructor
  · intro g cellid flag h
    unfold get_cell_vertices at h
    cases hw : wrapCellid g.ncpl g.nnodes cellid with
    | error e =>
      rw [hw] at h
      dsimp only at h
      have he : e = .indexOut := Except.error.inj h
      unfold wrapCellid at hw
      rw [he] at hw
      exact wrapGo_indexOut _ _ hw
    | ok cid =>
      rw [hw] at h
      exfalso
      unfold afterWrap at h
      cases hx : g.xyzvertices with
      | error e =>
        rw [hx] at h
        dsimp only at h
        have he : e = .indexOut := Except.error.inj h
        rw [he] at hx
        rcases xyzvertices_err hx with h' | h' | h' <;> exact absurd h' (by simp)
      | ok v =>
        obtain ⟨xv, yv, zv⟩ := v
        rw [hx] at h
        dsimp only at h
        split at h
        · exact absurd h (by simp)
        · exact absurd (Except.error.inj h) (by simp)
  · decide

/-- Witness for `claim_C10_negative_accepted`: on the fixture `g3`
(`nnodes = 4`) the call with `cellid = 5` raises the explicit
`IndexError`, and the theorem yields `nnodes < 5`. -/
theorem claim_C10_witness : (g3.nnodes : Int) < 5 :=
  claim_C10_negative_accepted.1 g3 5 true (by decide)

end FlopyVG


